import Mathlib

/-!
Verification of the Cargomatic Command Center scraping script
(`cargomatic_agent.py`) against its natural-language specification.

Python strings are modelled as `List Char` (`PyStr`), Python exceptions as
`Except PyStr` results, and each method's page interactions as an explicit
outcome parameter (the "body outcome"): the page calls inside a `try` block
either produce a value or raise, and the surrounding control flow is
transcribed from the source.  `print` statements, `time.sleep` calls and the
debug-artifact writes in `except` handlers are treated as non-raising.
-/

/-- Python `str` values, modelled as lists of characters. -/
abbrev PyStr := List Char

/-- The outcome of a piece of Python code: a value, or a raised exception
carrying its message. -/
abbrev PyResult (α : Type) := Except PyStr α

/-- Python `address.split(',')` (line 357): split at every comma, keeping
empty segments; the result is always nonempty. -/
def splitOnComma : List Char → List (List Char)
  | [] => [[]]
  | c :: cs =>
    if c = ',' then [] :: splitOnComma cs
    else
      match splitOnComma cs with
      | [] => [[c]]
      | p :: ps => (c :: p) :: ps

/-- Python `p.strip()` (line 357): remove leading and trailing whitespace
(`Char.isWhitespace`, which covers the ASCII whitespace of these
addresses). -/
def pyStrip (s : List Char) : List Char :=
  ((s.dropWhile Char.isWhitespace).reverse.dropWhile Char.isWhitespace).reverse

/-- Split at every whitespace character, keeping empty segments
(helper for `pySplitWs`). -/
def splitWsAll : List Char → List (List Char)
  | [] => [[]]
  | c :: cs =>
    if c.isWhitespace then [] :: splitWsAll cs
    else
      match splitWsAll cs with
      | [] => [[c]]
      | p :: ps => (c :: p) :: ps

/-- Python `s.split()` with no argument (line 361): split on whitespace
runs, discarding empty segments. -/
def pySplitWs (s : List Char) : List (List Char) :=
  (splitWsAll s).filter (fun p => p ≠ [])

/-- The sentinel string `"Unknown"` (lines 188-189, 193-194, 350-351). -/
def unknownStr : PyStr := "Unknown".toList

/-- `extract_city` (lines 354-362), transcribed clause by clause:

```python
def extract_city(address):
    if ',' in address:
        parts = [p.strip() for p in address.split(',')]
        if len(parts) >= 3:
            return parts[1]
        elif len(parts) == 2:
            return parts[1].split()[0] if parts[1] else parts[1]
    return address
```
-/
def extract_city (address : PyStr) : PyStr :=
  if ',' ∈ address then
    let parts := (splitOnComma address).map pyStrip
    if 3 ≤ parts.length then parts.getD 1 []
    else if parts.length = 2 then
      let p1 := parts.getD 1 []
      if p1 ≠ [] then (pySplitWs p1).getD 0 [] else p1
    else address
  else address

/-- `extract_city` with every Python list indexing operation (`parts[1]`,
`parts[1].split()[0]`) made explicit as a checked access: `none` marks a
spot where CPython would raise `IndexError`. -/
def extract_city_checked (address : PyStr) : Option PyStr :=
  if ',' ∈ address then
    let parts := (splitOnComma address).map pyStrip
    if 3 ≤ parts.length then parts.get? 1
    else if parts.length = 2 then
      (parts.get? 1).bind fun p1 =>
        if p1 ≠ [] then (pySplitWs p1).get? 0 else some p1
    else some address
  else some address

/-- The mutable attributes of `CargomaticAgent` that `extract_shipment_info`
assigns.  `none` models a Python attribute that has never been set
(`getattr` with a default would be consulted, line 350-351). -/
structure AgentState where
  pickup_location : Option PyStr
  delivery_location : Option PyStr
deriving DecidableEq

/-- `extract_shipment_info` (lines 164-194).  The `try` block's page
interaction (waiting for `.gm-style-iw-d` overlays and reading their texts,
lines 170-179) is abstracted as `outcome`: on success it yields the list
`addresses` of overlay texts, on failure the raised exception.  The
assignment logic is transcribed from the source:

```python
if len(addresses) >= 2:
    self.pickup_location = addresses[0]
    self.delivery_location = addresses[-1]
else:
    self.pickup_location = addresses[0] if addresses else "Unknown"
    self.delivery_location = addresses[-1] if addresses else "Unknown"
except Exception as e:
    self.pickup_location = "Unknown"
    self.delivery_location = "Unknown"
```

(`addresses.headD []` is `addresses[0]` under a nonemptiness guarantee, and
`addresses.headD unknownStr` is `addresses[0] if addresses else "Unknown"`;
likewise `getLastD` for `addresses[-1]`.) -/
def extract_shipment_info (s : AgentState) (outcome : PyResult (List PyStr)) :
    AgentState :=
  match outcome with
  | Except.ok addresses =>
    if 2 ≤ addresses.length then
      { s with pickup_location := some (addresses.headD []),
               delivery_location := some (addresses.getLastD []) }
    else
      { s with pickup_location := some (addresses.headD unknownStr),
               delivery_location := some (addresses.getLastD unknownStr) }
  | Except.error _ =>
    { s with pickup_location := some unknownStr,
             delivery_location := some unknownStr }

/-! ### The task-description text emitted by `find_rate_card`

The f-string at lines 386-404, split at its four interpolation points
(`pickup_city`, `delivery_city`, `pickup_city`, `delivery_city`). -/

/-- Literal text of the f-string before the first interpolation. -/
def taskSeg0 : String :=
  "\nYou are viewing a Google Sheets document with rate card information.\n\nYour task:\n1. Look at the visible spreadsheet cells\n2. Find rows that contain \""

/-- Literal text between the first and second interpolations. -/
def taskSeg1 : String :=
  "\" (the origin/pickup city) \n3. For matching rows, also check if they match \""

/-- Literal text between the second and third interpolations. -/
def taskSeg2 : String :=
  "\" (the destination/delivery city)\n4. Extract the rate/price information from the matching row(s)\n5. Report back the rate card details you found\n\nThe sheet may have columns like: Origin, Destination, Rate, Service Type, etc.\nFocus on finding rows where Origin matches \""

/-- Literal text between the third and fourth interpolations. -/
def taskSeg3 : String :=
  "\" and Destination matches \""

/-- Literal text after the last interpolation. -/
def taskSeg4 : String :=
  "\", or vice versa.\n\nWhen you find a match, read the entire row and report all relevant information (rate, service type, any notes, etc.).\n\nIf you cannot find an exact match for both cities, report what you DO find (e.g., just origin match or just destination match).\n\nReturn when you have completed the search and extraction.\n"

/-- `task_description` (lines 386-404): the f-string assembled from its
literal segments and the two interpolated city names. -/
def task_description (pickup_city delivery_city : PyStr) : PyStr :=
  taskSeg0.toList ++ pickup_city ++ taskSeg1.toList ++ delivery_city ++
    taskSeg2.toList ++ pickup_city ++ taskSeg3.toList ++ delivery_city ++
      taskSeg4.toList

/-- Python `x or y` on strings / attribute lookup with default (lines
350-351): `pickup = pickup or getattr(self, 'pickup_location', 'Unknown')`.
`arg` is the optional parameter (default `None`), `attr` the attribute
(`none` = never assigned, in which case `getattr` yields `"Unknown"`). -/
def resolve_location (arg : Option PyStr) (attr : Option PyStr) : PyStr :=
  match arg with
  | some s => if s ≠ [] then s else attr.getD unknownStr
  | none => attr.getD unknownStr

/-- The data flow of `find_rate_card` (lines 327-435) after the pickup and
delivery addresses are resolved: both cities are extracted with
`extract_city` (lines 364-365), the task-description text is built and
printed (lines 386-430), and the function returns `None` — no structured
rate value is ever computed.  The first component is the emitted text, the
second the returned rate value (always `none`, Python's implicit
`return None`). -/
def find_rate_card (pickup delivery : PyStr) : PyStr × Option PyStr :=
  let pickup_city := extract_city pickup
  let delivery_city := extract_city delivery
  (task_description pickup_city delivery_city, none)

/-! ### Control-flow skeletons of the Navigator operations

Each method's page interactions are abstracted as outcome parameters; the
`try`/`except` structure around them is transcribed from the source.
Prints, `time.sleep` calls and the debug dumps inside `except` handlers are
treated as non-raising. -/

/-- `login` (lines 36-70): the whole page interaction (lines 40-60) sits in
one `try`; the handler (lines 62-70) prints, saves debug artifacts and
falls off the end of the function, so `login` always returns `None`. -/
def login (body : PyResult Unit) : PyResult Unit :=
  match body with
  | Except.ok _ => Except.ok ()
  | Except.error _ => Except.ok ()

/-- `search_shipment` (lines 72-94).  The navigation at lines 77-78
(`if "shipments" not in self.page.url: self.page.goto(...)`) happens
BEFORE the `try` at line 83: an exception raised by that `goto` propagates
to the caller.  Only the fill/click interaction (lines 84-91) is guarded by
the `try`, whose handler (lines 93-94) prints and returns. -/
def search_shipment (on_shipments_page : Bool) (goto_outcome : PyResult Unit)
    (body : PyResult Unit) : PyResult Unit :=
  match (if on_shipments_page then Except.ok () else goto_outcome) with
  | Except.error e => Except.error e
  | Except.ok _ =>
    match body with
    | Except.ok _ => Except.ok ()
    | Except.error _ => Except.ok ()

/-- `search_global` (lines 96-132): everything after the initial print —
including the nested calls to `extract_shipment_info`,
`click_shipper_link`, `navigate_to_sop` and `find_rate_card` — sits in one
`try` (lines 99-129) whose handler (lines 131-132) prints and returns. -/
def search_global (body : PyResult Unit) : PyResult Unit :=
  match body with
  | Except.ok _ => Except.ok ()
  | Except.error _ => Except.ok ()

/-- `get_shipper_info` (lines 134-162): the `try` (lines 137-158) returns
the shipper name, or `None` when the header is missing; the handler (lines
160-162) prints and returns `None`. -/
def get_shipper_info (body : PyResult (Option PyStr)) :
    PyResult (Option PyStr) :=
  match body with
  | Except.ok v => Except.ok v
  | Except.error _ => Except.ok none

/-- `click_shipper_link` (lines 196-242): the whole interaction (lines
199-239) sits in one `try`; the handler (lines 241-242) prints and
returns. -/
def click_shipper_link (body : PyResult Unit) : PyResult Unit :=
  match body with
  | Except.ok _ => Except.ok ()
  | Except.error _ => Except.ok ()

/-- `navigate_to_sop` (lines 244-325): the whole interaction (lines
247-322) sits in one `try`; the handler (lines 324-325) prints and
returns. -/
def navigate_to_sop (body : PyResult Unit) : PyResult Unit :=
  match body with
  | Except.ok _ => Except.ok ()
  | Except.error _ => Except.ok ()

/-- The control skeleton of `find_rate_card` (lines 327-435): the
tab-switching interaction (lines 332-346) sits in a first `try` whose
handler (lines 347-348) prints; the subagent section (lines 406-430) sits
in a second `try` whose handler (lines 432-435) prints a traceback; the
code between the two (string processing, prints, sleeps, a screenshot in
its own `try`/`except pass`) cannot raise.  The function always returns
`None`. -/
def find_rate_card_skeleton (tab_outcome body : PyResult Unit) :
    PyResult Unit :=
  match tab_outcome with
  | Except.ok _ =>
    (match body with
     | Except.ok _ => Except.ok ()
     | Except.error _ => Except.ok ())
  | Except.error _ =>
    (match body with
     | Except.ok _ => Except.ok ()
     | Except.error _ => Except.ok ())

/-! ### The script entry point `main` (lines 446-471)

Python name resolution for the call `agent.login(username, password)` at
line 453: a name is looked up in `main`'s local scope (names assigned
somewhere in `main`'s body), then the module's global scope (names bound at
module level), then the builtins.  The sets below are transcribed from the
source file. -/

/-- Names assigned in the body of `main`: only `agent` (line 447).  The
comment `# set username and password` (line 451) is not an assignment. -/
def main_local_names : List String := ["agent"]

/-- Names bound at module level: the imports (lines 1-4), the class
(line 9) and the function (line 446). -/
def module_level_names : List String :=
  ["os", "time", "sync_playwright", "load_dotenv", "CargomaticAgent",
   "main", "__name__", "__file__", "__doc__", "__builtins__"]

/-- The Python builtin names referenced by this program, plus the common
builtins; `username` and `password` are not builtins. -/
def python_builtin_names : List String :=
  ["print", "input", "open", "range", "len", "getattr", "hasattr",
   "Exception", "str", "int", "float", "list", "dict", "tuple", "set",
   "bool", "type", "isinstance", "enumerate", "zip", "map", "filter",
   "sorted", "sum", "min", "max", "abs", "repr", "id", "super", "object",
   "None", "True", "False"]

/-- Whether a bare name used inside `main` resolves (local, then global,
then builtin scope). -/
def name_resolves (n : String) : Bool :=
  main_local_names.contains n || module_level_names.contains n ||
    python_builtin_names.contains n

/-- The `NameError` raised when `username` does not resolve. -/
def nameErrorUsername : PyStr :=
  "NameError: name username is not defined".toList

/-- `main` (lines 446-468): `agent = CargomaticAgent(headless=False)`, then
a `try`/`finally` with no `except` clause (the `finally` body is `pass`), so
any exception propagates out of `main` — and, via the
`if __name__ == "__main__"` guard at lines 470-471, out of the script.
Inside the `try`: `agent.start()` (abstracted as `start_outcome`), then
`agent.login(username, password)` whose arguments are evaluated
left-to-right, raising `NameError` on the first unresolvable name; the rest
of the body (login onward, abstracted as `rest`) runs only if both names
resolve.  The boolean records whether `agent.login` was actually invoked. -/
def Script.main (start_outcome rest : PyResult Unit) : PyResult Unit × Bool :=
  match start_outcome with
  | Except.error e => (Except.error e, false)
  | Except.ok _ =>
    if name_resolves "username" then
      if name_resolves "password" then (rest, true)
      else (Except.error "NameError: name password is not defined".toList,
            false)
    else (Except.error nameErrorUsername, false)

/-! ### Helper lemmas -/

theorem splitOnComma_ne_nil (s : List Char) : splitOnComma s ≠ [] := by
  cases s with
  | nil => simp [splitOnComma]
  | cons c cs =>
    simp only [splitOnComma]
    split
    · simp
    · split <;> simp

theorem splitOnComma_of_not_mem {s : List Char} (h : ',' ∉ s) :
    splitOnComma s = [s] := by
  induction s with
  | nil => rfl
  | cons c cs ih =>
    have hc : ¬ c = ',' := fun hc => h (hc ▸ List.mem_cons_self c cs)
    have hcs : ',' ∉ cs := fun hm => h (List.mem_cons_of_mem _ hm)
    simp [splitOnComma, hc, ih hcs]

theorem comma_mem_of_two_le {s : List Char}
    (h : 2 ≤ (splitOnComma s).length) : ',' ∈ s := by
  by_contra hm
  rw [splitOnComma_of_not_mem hm] at h
  simp at h

theorem mem_dropWhile_append {α : Type} {p : α → Bool} {a : α}
    (ha : p a = false) : ∀ l : List α, a ∈ List.dropWhile p (l ++ [a])
  | [] => by simp [List.dropWhile, ha]
  | c :: l => by
    by_cases hc : p c = true
    · simpa [List.dropWhile_cons, hc] using mem_dropWhile_append ha l
    · simp [List.dropWhile_cons, hc]

theorem pyStrip_exists_not_ws {s : List Char} (h : pyStrip s ≠ []) :
    ∃ c ∈ pyStrip s, c.isWhitespace = false := by
  unfold pyStrip at *
  set t := s.dropWhile Char.isWhitespace with ht
  have htne : t ≠ [] := by
    intro h0
    rw [h0] at h
    simp at h
  have hhead : Char.isWhitespace (t.head htne) = false :=
    List.head_dropWhile_not _ _ htne
  refine ⟨t.head htne, ?_, hhead⟩
  rw [List.mem_reverse]
  have hrev : t.reverse = t.tail.reverse ++ [t.head htne] := by
    conv_lhs => rw [← List.head_cons_tail t htne]
    simp
  rw [hrev]
  exact mem_dropWhile_append hhead _

theorem pySplitWs_ne_nil {s : List Char}
    (h : ∃ c ∈ s, c.isWhitespace = false) : pySplitWs s ≠ [] := by
  induction s with
  | nil => simp at h
  | cons c cs ih =>
    obtain ⟨x, hx, hxw⟩ := h
    by_cases hc : c.isWhitespace = true
    · have hxcs : x ∈ cs := by
        rcases List.mem_cons.mp hx with rfl | h2
        · rw [hxw] at hc; exact absurd hc (by simp)
        · exact h2
      have hrec := ih ⟨x, hxcs, hxw⟩
      simpa [pySplitWs, splitWsAll, hc] using hrec
    · simp only [pySplitWs, splitWsAll, hc, if_neg]
      rcases hsa : splitWsAll cs with _ | ⟨p, ps⟩
      · exact absurd hsa (by
          cases cs with
          | nil => simp [splitWsAll]
          | cons d ds =>
            simp only [splitWsAll]
            split
            · simp
            · split <;> simp)
      · simp [hsa, List.filter]

theorem pySplitWs_pyStrip_ne_nil {s : List Char} (h : pyStrip s ≠ []) :
    pySplitWs (pyStrip s) ≠ [] :=
  pySplitWs_ne_nil (pyStrip_exists_not_ws h)

theorem get?_eq_some_getD {α : Type} {l : List α} {n : Nat}
    (h : n < l.length) (d : α) : l.get? n = some (l.getD n d) := by
  rw [List.get?_eq_getElem?, List.getElem?_eq_getElem h,
    List.getD_eq_getElem _ _ h]

/-- The second branch of `extract_city`, characterised: with exactly two
comma-separated parts the result is the head of the whitespace-split of the
trimmed second part (the empty string when that part is empty). -/
theorem extract_city_eq_of_two_parts (address : PyStr)
    (h : (splitOnComma address).length = 2) :
    extract_city address =
      (pySplitWs (pyStrip ((splitOnComma address).getD 1 []))).getD 0 [] := by
  have hmem : ',' ∈ address := comma_mem_of_two_le (by omega)
  have h1 : 1 < (splitOnComma address).length := by omega
  unfold extract_city
  rw [if_pos hmem]
  have hlen : ((splitOnComma address).map pyStrip).length = 2 := by
    simpa using h
  rw [if_neg (by omega), if_pos hlen]
  have hgd : ((splitOnComma address).map pyStrip).getD 1 [] =
      pyStrip ((splitOnComma address).getD 1 []) := by
    rw [List.getD_eq_getElem _ _ (by simpa using h1), List.getElem_map,
      ← List.getD_eq_getElem _ _ h1]
  rw [hgd]
  by_cases hp : pyStrip ((splitOnComma address).getD 1 []) = []
  · rw [if_neg (not_not_intro hp), hp]
    rfl
  · rw [if_pos hp]

/-- The third branch of `extract_city`, characterised: with at least three
comma-separated parts the result is the trimmed second part. -/
theorem extract_city_eq_of_three_parts (address : PyStr)
    (h : 3 ≤ (splitOnComma address).length) :
    extract_city address = pyStrip ((splitOnComma address).getD 1 []) := by
  have hmem : ',' ∈ address := comma_mem_of_two_le (by omega)
  have h1 : 1 < (splitOnComma address).length := by omega
  unfold extract_city
  rw [if_pos hmem, if_pos (by simpa using h)]
  rw [List.getD_eq_getElem _ _ (by simpa using h1), List.getElem_map,
    ← List.getD_eq_getElem _ _ h1]

/-- On a successful overlay lookup, `extract_shipment_info` stores the
first text (or `"Unknown"` when there is none) as pickup and the last text
(or `"Unknown"`) as delivery, for any number of texts. -/
theorem extract_shipment_info_ok_eq (s : AgentState)
    (addresses : List PyStr) :
    extract_shipment_info s (Except.ok addresses) =
      { s with pickup_location := some (addresses.headD unknownStr),
               delivery_location := some (addresses.getLastD unknownStr) } := by
  simp only [extract_shipment_info]
  split
  case isTrue h =>
    have hne : addresses ≠ [] := by
      intro h0
      rw [h0] at h
      simp at h
    simp [List.headD_eq_head?, List.head?_eq_head hne,
      List.getLastD_eq_getLast?, List.getLast?_eq_getLast _ hne]
  case isFalse h => rfl

/-! ### Claim theorems -/

/-- C2: for every address string that splits on commas into exactly 2
parts, `extract_city` returns the first whitespace-separated token of the
trimmed second part (the head of its whitespace-split; when the trimmed
second part is empty there is no token and the result is the empty
string). -/
theorem extract_city_two_parts (address : PyStr)
    (h : (splitOnComma address).length = 2) :
    extract_city address =
      (pySplitWs (pyStrip ((splitOnComma address).getD 1 []))).getD 0 [] :=
  extract_city_eq_of_two_parts address h

/-- Witness for C2: `"Chicago, IL"` has exactly 2 comma-separated parts
and its extracted city is the first token of `"IL"`. -/
theorem extract_city_two_parts_witness :
    (splitOnComma ("Chicago, IL".toList)).length = 2 ∧
    extract_city ("Chicago, IL".toList) =
      (pySplitWs (pyStrip
        ((splitOnComma ("Chicago, IL".toList)).getD 1 []))).getD 0 [] :=
  ⟨by decide, extract_city_two_parts _ (by decide)⟩

/-- C3: for every address string that splits on commas into 3 or more
parts, `extract_city` returns the second part with surrounding whitespace
trimmed. -/
theorem extract_city_three_parts (address : PyStr)
    (h : 3 ≤ (splitOnComma address).length) :
    extract_city address = pyStrip ((splitOnComma address).getD 1 []) :=
  extract_city_eq_of_three_parts address h

/-- Witness for C3: `"123 Main St, Springfield, IL 62704"` has 3
comma-separated parts and its extracted city is the trimmed second part. -/
theorem extract_city_three_parts_witness :
    3 ≤ (splitOnComma ("123 Main St, Springfield, IL 62704".toList)).length ∧
    extract_city ("123 Main St, Springfield, IL 62704".toList) =
      pyStrip ((splitOnComma
        ("123 Main St, Springfield, IL 62704".toList)).getD 1 []) :=
  ⟨by decide, extract_city_three_parts _ (by decide)⟩

/-- C4: `extract_city` maps `"123 Main St, Springfield, IL 62704"` to
`"Springfield"` and `"Chicago, IL"` to `"IL"`. -/
theorem extract_city_examples :
    extract_city ("123 Main St, Springfield, IL 62704".toList) =
      "Springfield".toList ∧
    extract_city ("Chicago, IL".toList) = "IL".toList := by
  exact ⟨by decide, by decide⟩

/-- C5: for every address string containing no comma, `extract_city`
returns the input string unchanged. -/
theorem extract_city_no_comma (address : PyStr) (h : ',' ∉ address) :
    extract_city address = address := by
  simp [extract_city, h]

/-- Witness for C5: `"123 Main St"` contains no comma and is returned
unchanged. -/
theorem extract_city_no_comma_witness :
    (',' ∉ ("123 Main St".toList)) ∧
      extract_city ("123 Main St".toList) = "123 Main St".toList :=
  ⟨by decide, extract_city_no_comma _ (by decide)⟩

/-- C9: `extract_city` is total: the variant in which every Python list
indexing is a checked access (`none` = `IndexError`) always returns
`some`, agreeing with `extract_city`; and on a 2-part address whose
trimmed second part is empty (e.g. a trailing comma) the result is the
empty string. -/
theorem extract_city_total (address : PyStr) :
    extract_city_checked address = some (extract_city address) ∧
    ((splitOnComma address).length = 2 →
      pyStrip ((splitOnComma address).getD 1 []) = [] →
      extract_city address = []) := by
  constructor
  · unfold extract_city_checked extract_city
    by_cases hmem : ',' ∈ address
    · rw [if_pos hmem, if_pos hmem]
      by_cases h3 : 3 ≤ ((splitOnComma address).map pyStrip).length
      · rw [if_pos h3, if_pos h3]
        exact get?_eq_some_getD (by omega) []
      · rw [if_neg h3, if_neg h3]
        by_cases h2 : ((splitOnComma address).map pyStrip).length = 2
        · rw [if_pos h2, if_pos h2]
          rw [get?_eq_some_getD (d := []) (by omega), Option.some_bind]
          have hgd : ((splitOnComma address).map pyStrip).getD 1 [] =
              pyStrip ((splitOnComma address).getD 1 []) := by
            have h1 : 1 < (splitOnComma address).length := by
              have := h2
              simp only [List.length_map] at this
              omega
            rw [List.getD_eq_getElem _ _ (by simpa using h1),
              List.getElem_map, ← List.getD_eq_getElem _ _ h1]
          rw [hgd]
          by_cases hp : pyStrip ((splitOnComma address).getD 1 []) = []
          · rw [if_neg (not_not_intro hp), if_neg (not_not_intro hp)]
          · rw [if_pos hp, if_pos hp]
            exact get?_eq_some_getD
              (List.length_pos.mpr (pySplitWs_pyStrip_ne_nil hp)) []
        · rw [if_neg h2, if_neg h2]
    · rw [if_neg hmem, if_neg hmem]
  · intro h2 hp
    rw [extract_city_eq_of_two_parts address h2, hp]
    rfl

/-- Witness for C9: the trailing-comma address `"Chicago,"`: the checked
evaluation succeeds and the extracted city is the empty string. -/
theorem extract_city_total_witness :
    extract_city_checked ("Chicago,".toList) =
        some (extract_city ("Chicago,".toList)) ∧
      extract_city ("Chicago,".toList) = [] :=
  ⟨(extract_city_total ("Chicago,".toList)).1,
    (extract_city_total ("Chicago,".toList)).2 (by decide) (by decide)⟩

/-- C1 counterexample: a run of `extract_shipment_info` that finds exactly
one overlay text (N = 1 < 2) does NOT set both locations to `"Unknown"`:
it sets both to that single text (`addresses[0] if addresses else
"Unknown"`, lines 188-189). -/
theorem extract_shipment_info_single_text :
    extract_shipment_info ⟨none, none⟩ (Except.ok [['A']]) =
        ⟨some ['A'], some ['A']⟩ ∧
      extract_shipment_info ⟨none, none⟩ (Except.ok [['A']]) ≠
        ⟨some unknownStr, some unknownStr⟩ := by
  exact ⟨by decide, by decide⟩

/-- C1 (amended): on a successful overlay lookup, if N ≥ 2 texts were
extracted then pickup is the first and delivery the last; if N = 0 both
fall back to `"Unknown"`; if N = 1 both are set to that single text.
Equivalently, pickup is the first text when one exists and `"Unknown"`
otherwise, and delivery is the last text when one exists and `"Unknown"`
otherwise. -/
theorem extract_shipment_info_assignment (s : AgentState)
    (addresses : List PyStr) :
    extract_shipment_info s (Except.ok addresses) =
      { s with pickup_location := some (addresses.headD unknownStr),
               delivery_location := some (addresses.getLastD unknownStr) } :=
  extract_shipment_info_ok_eq s addresses

/-- C10: after every call to `extract_shipment_info` — overlay lookup
succeeded or exception caught — both `pickup_location` and
`delivery_location` are defined and hold a string: one of the extracted
overlay texts or the sentinel `"Unknown"`. -/
theorem extract_shipment_info_defines_locations (s : AgentState)
    (outcome : PyResult (List PyStr)) :
    ∃ p d, (extract_shipment_info s outcome).pickup_location = some p ∧
      (extract_shipment_info s outcome).delivery_location = some d ∧
      (p = unknownStr ∨ ∃ a, outcome = Except.ok a ∧ p ∈ a) ∧
      (d = unknownStr ∨ ∃ a, outcome = Except.ok a ∧ d ∈ a) := by
  match outcome with
  | Except.error e =>
    exact ⟨unknownStr, unknownStr, rfl, rfl, Or.inl rfl, Or.inl rfl⟩
  | Except.ok addresses =>
    cases addresses with
    | nil =>
      exact ⟨unknownStr, unknownStr, by simp [extract_shipment_info],
        by simp [extract_shipment_info], Or.inl rfl, Or.inl rfl⟩
    | cons a t =>
      have hne : (a :: t) ≠ [] := by simp
      refine ⟨(a :: t).headD unknownStr, (a :: t).getLastD unknownStr,
        ?_, ?_, ?_, ?_⟩
      · rw [extract_shipment_info_ok_eq]
      · rw [extract_shipment_info_ok_eq]
      · exact Or.inr ⟨a :: t, rfl, by simp⟩
      · refine Or.inr ⟨a :: t, rfl, ?_⟩
        rw [List.getLastD_eq_getLast?, List.getLast?_eq_getLast _ hne]
        exact List.getLast_mem hne

/-- C6: for every pickup and delivery address, `find_rate_card` emits a
task-description text that contains the extracted pickup city and the
extracted delivery city as contiguous substrings, and returns no
structured rate value (`none`). -/
theorem find_rate_card_emits_cities (pickup delivery : PyStr) :
    List.IsInfix (extract_city pickup) (find_rate_card pickup delivery).1 ∧
    List.IsInfix (extract_city delivery) (find_rate_card pickup delivery).1 ∧
    (find_rate_card pickup delivery).2 = none := by
  refine ⟨⟨taskSeg0.toList,
      taskSeg1.toList ++ extract_city delivery ++ taskSeg2.toList ++
        extract_city pickup ++ taskSeg3.toList ++ extract_city delivery ++
          taskSeg4.toList, ?_⟩,
    ⟨taskSeg0.toList ++ extract_city pickup ++ taskSeg1.toList,
      taskSeg2.toList ++ extract_city pickup ++ taskSeg3.toList ++
        extract_city delivery ++ taskSeg4.toList, ?_⟩, rfl⟩ <;>
  simp [find_rate_card, task_description, List.append_assoc]

/-- C7 counterexample: `search_shipment`'s navigation to the shipments
page (lines 77-78) runs BEFORE its `try` block; when the agent is not on
the shipments page and that `goto` raises (e.g. a navigation timeout), the
exception is not caught and `search_shipment` does not return normally. -/
theorem search_shipment_goto_uncaught :
    search_shipment false (Except.error ("TimeoutError".toList))
        (Except.ok ()) =
      Except.error ("TimeoutError".toList) ∧
    search_shipment false (Except.error ("TimeoutError".toList))
        (Except.ok ()) ≠ Except.ok () := by
  refine ⟨rfl, fun hcontra => ?_⟩
  exact Except.noConfusion hcontra

/-- C7 (amended): for `login`, `search_global`, `get_shipper_info`,
`extract_shipment_info`, `click_shipper_link`, `navigate_to_sop` and
`find_rate_card`, every exception raised in the operation's interaction
body is caught inside the operation and the operation returns normally to
its caller; `search_shipment` likewise catches every exception of its
search interaction, but its preliminary navigation to the shipments page
(lines 77-78) lies before its `try` block, and an exception raised there
propagates to the caller.  No operation retries a failed step: each body
outcome is consumed exactly once. -/
theorem catch_log_continue_policy
    (b_login b_global b_click b_sop b_search tab_o b_rate : PyResult Unit)
    (b_ship : PyResult (Option PyStr)) (s : AgentState) (e : PyStr)
    (on_page : Bool) (goto_outcome : PyResult Unit) :
    login b_login = Except.ok () ∧
    search_global b_global = Except.ok () ∧
    (∃ v, get_shipper_info b_ship = Except.ok v) ∧
    extract_shipment_info s (Except.error e) =
      { s with pickup_location := some unknownStr,
               delivery_location := some unknownStr } ∧
    click_shipper_link b_click = Except.ok () ∧
    navigate_to_sop b_sop = Except.ok () ∧
    find_rate_card_skeleton tab_o b_rate = Except.ok () ∧
    ((on_page = true ∨ goto_outcome = Except.ok ()) →
      search_shipment on_page goto_outcome b_search = Except.ok ()) ∧
    search_shipment false (Except.error e) b_search = Except.error e := by
  refine ⟨?_, ?_, ?_, rfl, ?_, ?_, ?_, ?_, rfl⟩
  · cases b_login <;> rfl
  · cases b_global <;> rfl
  · cases b_ship with
    | ok v => exact ⟨v, rfl⟩
    | error _ => exact ⟨none, rfl⟩
  · cases b_click <;> rfl
  · cases b_sop <;> rfl
  · cases tab_o <;> cases b_rate <;> rfl
  · rintro (hpage | hgoto)
    · subst hpage
      cases b_search <;> rfl
    · subst hgoto
      cases on_page <;> cases b_search <;> rfl

/-- Witness for C7 (amended): a concrete instance — `search_shipment` on
the shipments page with a failing search interaction still returns
normally. -/
theorem catch_log_continue_policy_witness :
    search_shipment true (Except.ok ()) (Except.error ['x']) =
      Except.ok () :=
  ((catch_log_continue_policy (Except.ok ()) (Except.ok ()) (Except.ok ())
    (Except.ok ()) (Except.error ['x']) (Except.ok ()) (Except.ok ())
    (Except.ok none) ⟨none, none⟩ ['x'] true
    (Except.ok ())).2.2.2.2.2.2.2.1) (Or.inl rfl)

/-- C8: with a successful browser start, `main` raises `NameError` when
evaluating the arguments of `agent.login(username, password)` (line 453):
neither `username` nor `password` resolves in any scope, and since `main`
has only a `finally` clause the error propagates uncaught; `agent.login`
is never invoked (the `false` flag). -/
theorem main_raises_name_error (rest : PyResult Unit) :
    name_resolves "username" = false ∧
    name_resolves "password" = false ∧
    Script.main (Except.ok ()) rest =
      (Except.error nameErrorUsername, false) := by
  refine ⟨by decide, by decide, ?_⟩
  simp only [Script.main]
  rw [show name_resolves "username" = false from by decide]
  rfl
